import Mathlib

/-!
Verification of the protocol layer of the simulacrum multi-agent system:
a shallow embedding of the voting consensus calculator
(src/simulacrum/protocols/voting.py), the jury deliberation loop
(src/simulacrum/protocols/jury.py) and the bilateral negotiation loop
(src/simulacrum/economy/negotiation.py), together with theorems settling
the frozen claims about them.

Modelling conventions: Python floats are modelled exactly as rationals;
Python strings are modelled as lists of characters (the string functions
used by the source are ASCII-level, matching Char.toUpper and friends);
a participant is a name, a five-component trait vector and an opaque
think capability mapping a prompt and a context label to a response.
-/

namespace Simulacrum

/-! ### Character-list utilities mirroring the Python string operations -/

/-- Model of the Python str.split of a string on a single character. -/
def splitOnChar (c : Char) : List Char → List (List Char)
  | [] => [[]]
  | x :: xs =>
    let r := splitOnChar c xs
    if x = c then [] :: r
    else
      match r with
      | [] => [[x]]
      | h :: t => (x :: h) :: t

/-- Model of the Python substring test (needle in hay). -/
def containsSub (needle hay : List Char) : Bool :=
  (List.range (hay.length + 1)).any fun i => needle.isPrefixOf (hay.drop i)

/-- Model of Python str.upper restricted to ASCII. -/
def upperChars (l : List Char) : List Char := l.map Char.toUpper

/-- Model of Python str.lower restricted to ASCII. -/
def lowerChars (l : List Char) : List Char := l.map Char.toLower

/-- Model of Python str.strip: drop whitespace at both ends. -/
def stripChars (l : List Char) : List Char :=
  ((l.dropWhile Char.isWhitespace).reverse.dropWhile Char.isWhitespace).reverse

/-- Everything after the first colon of a line, as in line.split sliced at 1. -/
def afterFirstColon (l : List Char) : List Char :=
  (l.dropWhile (fun c => ¬ c = ':')).drop 1

/-- Value of a digit string, as Python int applied to a string of digits. -/
def digitsVal (l : List Char) : ℕ :=
  l.foldl (fun a c => 10 * a + (c.toNat - 48)) 0

/-! ### Tallies (Python collections.Counter restricted to what the source uses) -/

/-- A tally: option label to count, in first-insertion order with distinct keys. -/
abbrev Tally := List (List Char × ℕ)

/-- Distinct elements of a list, in order of first occurrence
(the key order of a Python Counter or dict built by insertion). -/
def keysOf (l : List (List Char)) : List (List Char) :=
  l.foldl (fun acc x => if x ∈ acc then acc else acc ++ [x]) []

/-- Counter built from a list of cast choices. -/
def tallyOf (l : List (List Char)) : Tally :=
  (keysOf l).map fun k => (k, l.count k)

/-- Largest count in a tally (Counter.most_common first count;
zero on the empty tally, which the source never queries). -/
def maxCount (t : Tally) : ℕ :=
  t.foldr (fun p m => max p.2 m) 0

/-- First key attaining the largest count: the winner reported by
Counter.most_common and by Python max over a dict with a value key,
both of which keep first-insertion order among equals. -/
def winnerOf (t : Tally) : List Char :=
  ((t.find? fun p => p.2 == maxCount t).map Prod.fst).getD []

/-- Tie test of the source: the two largest counts of the tally are equal,
that is the tally has more than one entry and its maximum count is attained
at least twice (Counter.most_common(2) comparing the top two counts). -/
def tiedTopTwo (t : Tally) : Bool :=
  decide (1 < t.length) && decide (2 ≤ (t.filter fun p => p.2 == maxCount t).length)

/-! ### Participants -/

/-- Five-factor trait vector of a participant, each component in [0,1]. -/
structure Traits where
  openness : ℚ
  conscientiousness : ℚ
  extraversion : ℚ
  agreeableness : ℚ
  neuroticism : ℚ

/-- A participant: unique name, trait vector, and the opaque think
capability (prompt and context label to free text). -/
structure Agent where
  name : String
  traits : Traits
  think : List Char → List Char → List Char

instance : Inhabited Agent :=
  ⟨{ name := "", traits := ⟨0, 0, 0, 0, 0⟩, think := fun _ _ => [] }⟩

/-! ### Voting protocol data model (protocols/base.py and protocols/voting.py) -/

/-- Consensus mechanisms of ConsensusType. -/
inductive ConsensusType where
  | unanimous
  | simple_majority
  | supermajority
  | plurality
  | weighted
  | ranked_choice
deriving DecidableEq

/-- Per-option supporter lists (the breakdown dict). -/
abbrev Breakdown := List (List Char × List String)

/-- Result of a voting process (VotingResult). -/
structure VotingResult where
  winner : List Char
  vote_counts : Tally
  total_votes : ℕ
  consensus_type : ConsensusType
  is_decisive : Bool
  tied : Bool
  confidence : ℚ
  breakdown : Breakdown

/-- One parsed vote as assembled in _collect_votes: the chosen option,
the voting agent and the trait consulted by weighted voting. -/
structure Vote where
  choice : List Char
  agent_id : String
  conscientiousness : ℚ

/-- Simple majority rule (_simple_majority): decisive iff the top count
strictly exceeds half the total and there is no tie. -/
def simpleMajority (voteCounts : Tally) (totalVotes : ℕ) (breakdown : Breakdown) :
    VotingResult :=
  let maxVotes := maxCount voteCounts
  let required : ℚ := (totalVotes : ℚ) / 2
  let isDecisive := decide (required < (maxVotes : ℚ))
  let tied := tiedTopTwo voteCounts
  { winner := winnerOf voteCounts
    vote_counts := voteCounts
    total_votes := totalVotes
    consensus_type := .simple_majority
    is_decisive := isDecisive && !tied
    tied := tied
    confidence := if tied then 0.5 else (maxVotes : ℚ) / (totalVotes : ℚ)
    breakdown := breakdown }

/-- Supermajority rule (_supermajority): decisive iff the top count is at
least two thirds of the total, boundary included. -/
def supermajority (voteCounts : Tally) (totalVotes : ℕ) (breakdown : Breakdown) :
    VotingResult :=
  let maxVotes := maxCount voteCounts
  let required : ℚ := (2 * (totalVotes : ℚ)) / 3
  let isDecisive := decide (required ≤ (maxVotes : ℚ))
  { winner := winnerOf voteCounts
    vote_counts := voteCounts
    total_votes := totalVotes
    consensus_type := .supermajority
    is_decisive := isDecisive
    tied := false
    confidence := (maxVotes : ℚ) / (totalVotes : ℚ)
    breakdown := breakdown }

/-- Unanimity rule (_unanimous): decisive iff every vote went to the winner. -/
def unanimousRule (voteCounts : Tally) (totalVotes : ℕ) (breakdown : Breakdown) :
    VotingResult :=
  let maxVotes := maxCount voteCounts
  let isDecisive := maxVotes == totalVotes
  { winner := winnerOf voteCounts
    vote_counts := voteCounts
    total_votes := totalVotes
    consensus_type := .unanimous
    is_decisive := isDecisive
    tied := false
    confidence := if isDecisive then 1 else (maxVotes : ℚ) / (totalVotes : ℚ)
    breakdown := breakdown }

/-- Plurality rule (_plurality): most votes wins, decisive iff no tie. -/
def pluralityRule (voteCounts : Tally) (totalVotes : ℕ) (breakdown : Breakdown) :
    VotingResult :=
  let maxVotes := maxCount voteCounts
  let tied := tiedTopTwo voteCounts
  { winner := winnerOf voteCounts
    vote_counts := voteCounts
    total_votes := totalVotes
    consensus_type := .plurality
    is_decisive := !tied
    tied := tied
    confidence := (maxVotes : ℚ) / (totalVotes : ℚ)
    breakdown := breakdown }

/-- Accumulate one weighted vote into the running weight table, keeping
first-insertion key order as a Python defaultdict does. -/
def addWeight (acc : List (List Char × ℚ)) (c : List Char) (w : ℚ) :
    List (List Char × ℚ) :=
  match acc with
  | [] => [(c, w)]
  | (k, v) :: t => if k = c then (k, v + w) :: t else (k, v) :: addWeight t c w

/-- Largest value of a list of rationals, as Python max over dict values. -/
def maxQ : List ℚ → ℚ
  | [] => 0
  | x :: xs => xs.foldl max x

/-- First key attaining the largest weight. -/
def winnerOfQ (l : List (List Char × ℚ)) : List Char :=
  ((l.find? fun p => p.2 == maxQ (l.map Prod.snd)).map Prod.fst).getD []

/-- Weight stored for a key, zero when absent. -/
def lookupQ (l : List (List Char × ℚ)) (k : List Char) : ℚ :=
  ((l.find? fun p => p.1 == k).map Prod.snd).getD 0

/-- Weighted rule (_weighted): each vote weighted by the conscientiousness
trait of its caster; always decisive, never tied. -/
def weightedRule (votes : List Vote) (breakdown : Breakdown) : VotingResult :=
  let weightedVotes := votes.foldl (fun acc v => addWeight acc v.choice v.conscientiousness) []
  let winner := winnerOfQ weightedVotes
  let totalWeight := (weightedVotes.map Prod.snd).sum
  { winner := winner
    vote_counts := weightedVotes.map fun p => (p.1, (Rat.floor (p.2 * 10)).toNat)
    total_votes := votes.length
    consensus_type := .weighted
    is_decisive := true
    tied := false
    confidence := lookupQ weightedVotes winner / totalWeight
    breakdown := breakdown }

/-- Breakdown dict of _calculate_result: option label to supporters in vote
order, keys in first-occurrence order. -/
def buildBreakdown (votes : List Vote) : Breakdown :=
  (keysOf (votes.map Vote.choice)).map fun k =>
    (k, (votes.filter fun v => v.choice == k).map Vote.agent_id)

/-- Dispatch of _calculate_result: tally the cast choices and apply the
selected consensus rule; the ranked-choice value falls through to the
simple-majority default branch as in the source. -/
def calculateResult (ct : ConsensusType) (votes : List Vote) : VotingResult :=
  let voteCounts := tallyOf (votes.map Vote.choice)
  let totalVotes := votes.length
  let breakdown := buildBreakdown votes
  match ct with
  | .simple_majority => simpleMajority voteCounts totalVotes breakdown
  | .supermajority => supermajority voteCounts totalVotes breakdown
  | .unanimous => unanimousRule voteCounts totalVotes breakdown
  | .plurality => pluralityRule voteCounts totalVotes breakdown
  | .weighted => weightedRule votes breakdown
  | .ranked_choice => simpleMajority voteCounts totalVotes breakdown

/-! ### Vote parsing (_parse_vote): three tolerant tiers plus fallback -/

/-- First tier of _parse_vote: a structured VOTE line. Scans every line of
the response containing VOTE (case-insensitively), takes the text after the
first colon, keeps its digits, and when they form a number inside the
1-based option range records that option; a later valid line overwrites an
earlier one, and a line with no digits or an out-of-range number leaves the
accumulator unchanged, as the source ignores the failed conversion. -/
def parseStructuredVote (response : List Char) (options : List (List Char)) :
    Option (List Char) :=
  if containsSub ("VOTE:".toList) (upperChars response) then
    (splitOnChar '\n' response).foldl
      (fun acc line =>
        if containsSub ("VOTE:".toList) (upperChars line) then
          let ds := (afterFirstColon line).filter Char.isDigit
          if ds = [] then acc
          else
            let n := digitsVal ds
            if 1 ≤ n ∧ n ≤ options.length then some (options.getD (n - 1) []) else acc
        else acc)
      none
  else none

/-- Second tier of _parse_vote: the first option whose lowercased text
occurs as a substring of the lowercased response. -/
def parseOptionMention (response : List Char) (options : List (List Char)) :
    Option (List Char) :=
  options.find? fun o => containsSub (lowerChars o) (lowerChars response)

/-- Third tier of _parse_vote: the first option whose 1-based position,
written in decimal, occurs within the first 50 characters of the response. -/
def parseNumericToken (response : List Char) (options : List (List Char)) :
    Option (List Char) :=
  ((List.range options.length).find? fun i =>
      containsSub (Nat.toDigits 10 (i + 1)) (response.take 50)).map
    fun i => options.getD i []

/-- Python falsiness of the running choice: unset, or set to the empty
string (an empty string is falsy, so the source retries on it too). -/
def choiceUnset (c : Option (List Char)) : Bool :=
  match c with
  | none => true
  | some v => v.isEmpty

/-- Choice computed by _parse_vote: try the structured tier, then the
option-mention tier, then the numeric-token tier, each only while the
running choice is still falsy; when all fail, abstain if abstention is
allowed and otherwise default to the first listed option. -/
def parseVoteChoice (allowAbstention : Bool) (response : List Char)
    (options : List (List Char)) : List Char :=
  let c1 := parseStructuredVote response options
  let c2 :=
    if choiceUnset c1 then
      match parseOptionMention response options with
      | some v => some v
      | none => c1
    else c1
  let c3 :=
    if choiceUnset c2 then
      match parseNumericToken response options with
      | some v => some v
      | none => c2
    else c2
  if choiceUnset c3 then
    if allowAbstention then ("ABSTAIN".toList) else options.headD []
  else c3.getD []

/-! ### Voting protocol execution (VotingProtocol.execute) -/

/-- Configuration of a VotingProtocol instance. -/
structure VotingCfg where
  consensus_type : ConsensusType
  allow_abstention : Bool
  require_reasoning : Bool

/-- Context of one voting execution. -/
structure VotingCtx where
  question : List Char
  options : List (List Char)
  background : List Char

/-- A logged agent response (the fields of log_response that voting sets). -/
structure LoggedResponse where
  agent_id : String
  response : List Char
  vote : List Char

/-- The protocol-state fields that voting reads or writes: the append-only
response log, the completion flag and the recorded result. -/
structure VotingState where
  responses : List LoggedResponse
  is_complete : Bool
  result : Option VotingResult

/-- Fresh protocol state of a newly constructed protocol. -/
def initVotingState : VotingState :=
  { responses := [], is_complete := false, result := none }

/-- Voting prompt assembled by _collect_votes. -/
def votingPrompt (cfg : VotingCfg) (question : List Char)
    (options : List (List Char)) (background : List Char) : List Char :=
  let optionsStr := List.intercalate ("\n".toList)
    (options.enum.map fun p => Nat.toDigits 10 (p.1 + 1) ++ (". ".toList) ++ p.2)
  (if background.isEmpty then [] else background ++ ("\n\n".toList)) ++
    ("QUESTION: ".toList) ++ question ++ ("\n\n".toList) ++
    ("OPTIONS:\n".toList) ++ optionsStr ++ ("\n\n".toList) ++
    (if cfg.require_reasoning then
      ("Respond with:\n1. Your choice (just the number)\n2. Your reasoning (1-2 sentences)\nFormat: \x27VOTE: [number]\\nREASON: [your reasoning]\x27".toList)
    else
      ("Respond with just the number of your choice (1, 2, 3, etc.)".toList))

/-- Vote collection (_collect_votes): consult each agent in order, parse the
response, and append a response record to the protocol state. -/
def collectVotes (cfg : VotingCfg) (agents : List Agent) (question : List Char)
    (options : List (List Char)) (background : List Char) (st : VotingState) :
    List Vote × VotingState :=
  let prompt := votingPrompt cfg question options background
  agents.foldl
    (fun acc a =>
      let response := a.think prompt ("Voting decision".toList)
      let choice := parseVoteChoice cfg.allow_abstention response options
      (acc.1 ++ [{ choice := choice, agent_id := a.name,
                   conscientiousness := a.traits.conscientiousness }],
       { acc.2 with
          responses := acc.2.responses ++
            [{ agent_id := a.name, response := response, vote := choice }] }))
    (([], st) : List Vote × VotingState)

/-- VotingProtocol.execute: validate participation, require a nonempty
option list, collect one vote per agent, compute the consensus result and
mark the state complete. Errors are raised before any agent is consulted
and leave the protocol state untouched. -/
def votingExecute (cfg : VotingCfg) (agents : List Agent) (ctx : VotingCtx)
    (st : VotingState) : Except String VotingResult × VotingState :=
  if agents.length < 2 then
    (.error ("Voting requires at least 2 agents"), st)
  else if ctx.options.isEmpty then
    (.error ("Voting requires options to choose from"), st)
  else
    let vs := collectVotes cfg agents ctx.question ctx.options ctx.background st
    let result := calculateResult cfg.consensus_type vs.1
    (.ok result, { vs.2 with is_complete := true, result := some result })

/-! ### Jury deliberation protocol (protocols/jury.py) -/

/-- Configuration of a JuryProtocol instance. -/
structure JuryCfg where
  max_rounds : ℕ
  required_consensus : ℚ
  allow_hung_jury : Bool

/-- Context of one jury execution. -/
structure JuryCtx where
  case_summary : List Char
  evidence : List (List Char)
  charges : List Char
  verdict_options : List (List Char)

/-- Final verdict from jury deliberation (JuryVerdict). -/
structure JuryVerdict where
  verdict : List Char
  final_vote_counts : Tally
  rounds_taken : ℕ
  consensus_reached : Bool
  vote_trajectory : List Tally
  key_arguments : List (List Char)
  holdouts : List String

/-- Jury vote parsing (_parse_jury_vote): an explicit VOTE line is checked
for GUILTY without NOT and then for NOT GUILTY; when that yields nothing
the whole response is searched, and the first listed option is the final
default. -/
def parseJuryVote (response : List Char) (options : List (List Char)) : List Char :=
  let responseUpper := upperChars response
  let structured : Option (List Char) :=
    if containsSub ("VOTE:".toList) responseUpper then
      let voteLine :=
        ((splitOnChar '\n' response).filter fun l =>
          containsSub ("VOTE:".toList) (upperChars l)).headD []
      let voteText := upperChars (stripChars (afterFirstColon voteLine))
      if containsSub ("GUILTY".toList) voteText &&
          !containsSub ("NOT".toList) voteText then
        some ("Guilty".toList)
      else if containsSub ("NOT GUILTY".toList) voteText then
        some ("Not Guilty".toList)
      else none
    else none
  match structured with
  | some v => v
  | none =>
    if containsSub ("NOT GUILTY".toList) responseUpper then ("Not Guilty".toList)
    else if containsSub ("GUILTY".toList) responseUpper then ("Guilty".toList)
    else options.headD []

/-- Prompt of the initial secret ballot (_initial_vote). -/
def initialVotePrompt (ctx : JuryCtx) : List Char :=
  let evidenceStr :=
    if ctx.evidence.isEmpty then ("See case summary".toList)
    else List.intercalate ("\n".toList) (ctx.evidence.map fun e => ("- ".toList) ++ e)
  ("You are a juror in a criminal trial.\n\nCHARGES: ".toList) ++ ctx.charges ++
    ("\n\nCASE SUMMARY:\n".toList) ++ ctx.case_summary ++
    ("\n\nEVIDENCE:\n".toList) ++ evidenceStr ++
    ("\n\nAs a juror, you must vote based on the evidence presented. \nRespond with ONLY your initial vote and brief reasoning:\n\nVOTE: [Guilty or Not Guilty]\nREASON: [1-2 sentences explaining your reasoning]\n".toList)

/-- Round-zero tally (_initial_vote): every juror is asked once and the
parsed votes are counted. -/
def juryInitialTally (agents : List Agent) (ctx : JuryCtx) : Tally :=
  tallyOf (agents.map fun a =>
    parseJuryVote (a.think (initialVotePrompt ctx) ("Jury initial vote".toList))
      ctx.verdict_options)

/-- Anonymized tally summary shared during discussion (_discussion_round). -/
def voteSummary (currentVotes : Tally) : List Char :=
  List.intercalate (", ".toList)
    (currentVotes.map fun p =>
      Nat.toDigits 10 p.2 ++ (" vote(s) for ".toList) ++ p.1)

/-- Discussion prompt of a deliberation round (_discussion_round). -/
def discussionPrompt (currentVotes : Tally) (roundNum : ℕ) : List Char :=
  ("You are in jury deliberations (Round ".toList) ++ Nat.toDigits 10 roundNum ++
    (").\n\nCURRENT VOTE COUNT: ".toList) ++ voteSummary currentVotes ++
    ("\n\nThe jury is not unanimous. Please share your strongest argument for your position.\nBe persuasive but respectful. Consider the evidence and the burden of proof.\n\nYour argument (2-3 sentences):".toList)

/-- Arguments produced in one discussion round (_discussion_round): each
juror contributes one name-prefixed statement. -/
def juryRoundArgs (agents : List Agent) (currentVotes : Tally) (roundNum : ℕ) :
    List (List Char) :=
  agents.map fun a =>
    a.name.toList ++ (": ".toList) ++
      a.think (discussionPrompt currentVotes roundNum)
        ("Jury deliberation argument".toList)

/-- Re-vote prompt (_revote), built from the last batch of arguments. -/
def revotePrompt (numAgents : ℕ) (args : List (List Char)) : List Char :=
  let recentArguments :=
    List.intercalate ("\n\n".toList) (args.drop (args.length - numAgents))
  ("The jury has heard the following arguments:\n\n".toList) ++ recentArguments ++
    ("\n\nAfter hearing these perspectives, has your position changed?\nConsider if the arguments were persuasive and if reasonable doubt exists.\n\nVOTE: [Guilty or Not Guilty]\nBRIEF NOTE: [Did you change your mind? Why/why not?]".toList)

/-- Tally after a re-vote (_revote): every juror votes again conditioned on
the round arguments. -/
def juryRoundTally (agents : List Agent) (args : List (List Char))
    (options : List (List Char)) : Tally :=
  tallyOf (agents.map fun a =>
    parseJuryVote (a.think (revotePrompt agents.length args) ("Jury re-vote".toList))
      options)

/-- Consensus check (_check_consensus): an empty tally never meets it;
otherwise the largest count divided by the juror count must reach the
threshold, computed on exact fractions with no rounding. -/
def checkConsensus (required : ℚ) (votes : Tally) (totalJurors : ℕ) : Bool :=
  if votes = [] then false
  else decide (required ≤ (maxCount votes : ℚ) / (totalJurors : ℚ))

/-- Holdout identification (_find_holdouts): the source always reports an
empty list. -/
def findHoldouts (trajectory : List Tally) : List String :=
  let _ := trajectory
  []

/-- Deliberation loop of JuryProtocol.execute, driven by the remaining
number of rounds: discuss, re-vote, record the tally, stop on consensus,
and on exhaustion declare a hung jury or force a plurality verdict. -/
def juryLoop (cfg : JuryCfg) (agents : List Agent) (ctx : JuryCtx) :
    ℕ → ℕ → Tally → List Tally → List (List Char) → JuryVerdict
  | 0, _, currentVotes, trajectory, keyArguments =>
    if cfg.allow_hung_jury then
      { verdict := "Hung Jury".toList
        final_vote_counts := currentVotes
        rounds_taken := cfg.max_rounds
        consensus_reached := false
        vote_trajectory := trajectory
        key_arguments := keyArguments.take 5
        holdouts := findHoldouts trajectory }
    else
      { verdict := winnerOf currentVotes
        final_vote_counts := currentVotes
        rounds_taken := cfg.max_rounds
        consensus_reached := false
        vote_trajectory := trajectory
        key_arguments := keyArguments.take 5
        holdouts := findHoldouts trajectory }
  | fuel + 1, roundNum, currentVotes, trajectory, keyArguments =>
    let args := juryRoundArgs agents currentVotes roundNum
    let newVotes := juryRoundTally agents args ctx.verdict_options
    let trajectory1 := trajectory ++ [newVotes]
    let keyArguments1 := keyArguments ++ args
    if checkConsensus cfg.required_consensus newVotes agents.length then
      { verdict := winnerOf newVotes
        final_vote_counts := newVotes
        rounds_taken := roundNum
        consensus_reached := true
        vote_trajectory := trajectory1
        key_arguments := keyArguments1.take 5
        holdouts := findHoldouts trajectory1 }
    else
      juryLoop cfg agents ctx fuel (roundNum + 1) newVotes trajectory1 keyArguments1

/-- JuryProtocol.execute: validate the juror count, take the initial secret
ballot, terminate at round zero when it already meets the consensus
fraction, and otherwise deliberate for up to max_rounds rounds. -/
def juryExecute (cfg : JuryCfg) (agents : List Agent) (ctx : JuryCtx) :
    Except String JuryVerdict :=
  if 6 ≤ agents.length ∧ agents.length ≤ 12 then
    let currentVotes := juryInitialTally agents ctx
    if checkConsensus cfg.required_consensus currentVotes agents.length then
      .ok
        { verdict := winnerOf currentVotes
          final_vote_counts := currentVotes
          rounds_taken := 0
          consensus_reached := true
          vote_trajectory := [currentVotes]
          key_arguments := []
          holdouts := [] }
    else
      .ok (juryLoop cfg agents ctx cfg.max_rounds 1 currentVotes [currentVotes] [])
  else
    .error ("Jury requires 6-12 agents, got " ++
      String.mk (Nat.toDigits 10 agents.length))

/-! ### Negotiation protocol (economy/negotiation.py) -/

/-- Possible outcomes of a negotiation (NegotiationOutcome). -/
inductive NegotiationOutcome where
  | success
  | failure
  | timeout
deriving DecidableEq

/-- An offer made during negotiation (Offer). -/
structure Offer where
  round : ℕ
  agent_id : String
  role : String
  price : ℚ
  message : String
deriving DecidableEq

/-- Result of a negotiation session (NegotiationResult). -/
structure NegotiationResult where
  outcome : NegotiationOutcome
  final_price : Option ℚ
  rounds_taken : ℕ
  offers : List Offer
  buyer_id : String
  seller_id : String
  item : String
  initial_ask : ℚ
  initial_bid : ℚ
  savings : Option ℚ
  premium : Option ℚ
deriving DecidableEq

/-- Configuration of a NegotiationProtocol instance. -/
structure NegotiationCfg where
  max_rounds : ℕ
  min_price_movement : ℚ
  convergence_threshold : ℚ

/-- Context of one negotiation execution. -/
structure NegotiationCtx where
  item : String
  seller_index : ℕ
  seller_reserve : ℚ
  buyer_max : ℚ

/-- Initial asking price (_get_initial_ask): the reserve marked up by a
trait-selected factor. -/
def initialAsk (seller : Agent) (reservePrice : ℚ) : ℚ :=
  let markupFactor : ℚ :=
    if 0.7 < seller.traits.openness then 1.8
    else if 0.7 < seller.traits.neuroticism then 1.2
    else 1.5
  reservePrice * markupFactor

/-- Initial bid (_get_initial_bid): a trait-selected fraction of the
maximum price. -/
def initialBid (buyer : Agent) (maxPrice : ℚ) : ℚ :=
  let bidFactor : ℚ :=
    if 0.7 < buyer.traits.agreeableness then 0.75
    else if 0.7 < buyer.traits.conscientiousness then 0.65
    else 0.6
  maxPrice * bidFactor

/-- Seller counter-offer (_seller_counter): concede a personality-derived,
pressure-scaled fraction of the gap, floored at the reserve, and forced to
move by at least the minimum price movement (again clamped at the
reserve). -/
def sellerCounter (cfg : NegotiationCfg) (seller : Agent)
    (currentAsk buyerBid reserve : ℚ) (roundNum : ℕ) : ℚ :=
  let gap := currentAsk - buyerBid
  let concessionRate : ℚ :=
    if 0.6 < seller.traits.agreeableness then 0.4
    else if 0.6 < seller.traits.conscientiousness then 0.3
    else 0.2
  let pressureFactor : ℚ := (roundNum : ℚ) / (cfg.max_rounds : ℚ)
  let concessionRate := concessionRate * (1 + pressureFactor)
  let newAsk := currentAsk - gap * concessionRate
  let newAsk := max newAsk reserve
  if |newAsk - currentAsk| < cfg.min_price_movement then
    max (currentAsk - cfg.min_price_movement) reserve
  else newAsk

/-- Buyer counter-offer (_buyer_counter): move a personality-derived,
pressure-scaled fraction of the gap upward, capped at the maximum price,
with the same minimum-movement rule. -/
def buyerCounter (cfg : NegotiationCfg) (buyer : Agent)
    (currentBid sellerAsk maxPrice : ℚ) (roundNum : ℕ) : ℚ :=
  let gap := sellerAsk - currentBid
  let concessionRate : ℚ :=
    if 0.6 < buyer.traits.agreeableness then 0.4
    else if 0.6 < buyer.traits.openness then 0.35
    else 0.25
  let pressureFactor : ℚ := (roundNum : ℚ) / (cfg.max_rounds : ℚ)
  let concessionRate := concessionRate * (1 + pressureFactor)
  let newBid := currentBid + gap * concessionRate
  let newBid := min newBid maxPrice
  if |newBid - currentBid| < cfg.min_price_movement then
    min (currentBid + cfg.min_price_movement) maxPrice
  else newBid

/-- Successful result assembly (_create_success_result): savings and
premium are derived from the initial positions, and the round count is
half the number of post-initial offers. -/
def createSuccessResult (buyer seller : Agent) (item : String)
    (finalPrice initialAskP initialBidP : ℚ) (offers : List Offer) :
    NegotiationResult :=
  { outcome := .success
    final_price := some finalPrice
    rounds_taken := (offers.filter fun o => 0 < o.round).length / 2
    offers := offers
    buyer_id := buyer.name
    seller_id := seller.name
    item := item
    initial_ask := initialAskP
    initial_bid := initialBidP
    savings := some (initialAskP - finalPrice)
    premium := some (finalPrice - initialBidP) }

/-- Multi-round negotiation loop of NegotiationProtocol.execute, driven by
the remaining number of rounds. Alongside the result it returns the log of
participant consultations (one entry per concession computed from an
agent), so that theorems can speak about which external interactions
happened. -/
def negLoop (cfg : NegotiationCfg) (seller buyer : Agent) (item : String)
    (reserve maxPrice initialAskP initialBidP : ℚ) :
    ℕ → ℕ → ℚ → ℚ → List Offer → List String → NegotiationResult × List String
  | 0, _, _, _, offers, log =>
    ({ outcome := .timeout
       final_price := none
       rounds_taken := cfg.max_rounds
       offers := offers
       buyer_id := buyer.name
       seller_id := seller.name
       item := item
       initial_ask := initialAskP
       initial_bid := initialBidP
       savings := none
       premium := none }, log)
  | fuel + 1, roundNum, currentAsk, currentBid, offers, log =>
    let ask1 := sellerCounter cfg seller currentAsk currentBid reserve roundNum
    let offers1 := offers ++
      [{ round := roundNum, agent_id := seller.name, role := "seller",
         price := ask1, message := "Counter-offer" }]
    let log1 := log ++ [seller.name]
    if |ask1 - currentBid| ≤ cfg.convergence_threshold then
      (createSuccessResult buyer seller item ((ask1 + currentBid) / 2)
        initialAskP initialBidP offers1, log1)
    else
      let bid1 := buyerCounter cfg buyer currentBid ask1 maxPrice roundNum
      let offers2 := offers1 ++
        [{ round := roundNum, agent_id := buyer.name, role := "buyer",
           price := bid1, message := "Counter-offer" }]
      let log2 := log1 ++ [buyer.name]
      if |ask1 - bid1| ≤ cfg.convergence_threshold then
        (createSuccessResult buyer seller item ((ask1 + bid1) / 2)
          initialAskP initialBidP offers2, log2)
      else
        negLoop cfg seller buyer item reserve maxPrice initialAskP initialBidP
          fuel (roundNum + 1) ask1 bid1 offers2 log2

/-- Body of NegotiationProtocol.execute after participant validation: the
no-ZOPA check returns a structured failure before any participant is
consulted; otherwise initial positions are taken, immediate convergence is
checked, and the multi-round loop runs. The second component is the
participant-consultation log. -/
def negRun (cfg : NegotiationCfg) (seller buyer : Agent) (item : String)
    (reserve maxPrice : ℚ) : NegotiationResult × List String :=
  if maxPrice < reserve then
    ({ outcome := .failure
       final_price := none
       rounds_taken := 0
       offers := []
       buyer_id := buyer.name
       seller_id := seller.name
       item := item
       initial_ask := reserve
       initial_bid := maxPrice
       savings := none
       premium := none }, [])
  else
    let initialAskP := initialAsk seller reserve
    let initialBidP := initialBid buyer maxPrice
    let offers : List Offer :=
      [{ round := 0, agent_id := seller.name, role := "seller",
         price := initialAskP, message := "Initial ask" },
       { round := 0, agent_id := buyer.name, role := "buyer",
         price := initialBidP, message := "Initial bid" }]
    let log := [seller.name, buyer.name]
    if |initialAskP - initialBidP| ≤ cfg.convergence_threshold then
      (createSuccessResult buyer seller item ((initialAskP + initialBidP) / 2)
        initialAskP initialBidP offers, log)
    else
      negLoop cfg seller buyer item reserve maxPrice initialAskP initialBidP
        cfg.max_rounds 1 initialAskP initialBidP offers log

/-- NegotiationProtocol.execute: exactly two participants are required;
the seller and buyer are picked by the seller index from the context. -/
def negExecute (cfg : NegotiationCfg) (agents : List Agent)
    (ctx : NegotiationCtx) : Except String (NegotiationResult × List String) :=
  if agents.length = 2 then
    let seller := agents.getD ctx.seller_index default
    let buyer := agents.getD (1 - ctx.seller_index) default
    .ok (negRun cfg seller buyer ctx.item ctx.seller_reserve ctx.buyer_max)
  else
    .error ("Negotiation requires exactly 2 agents")

/-! ### Concrete instances used by the theorems below -/

/-- A vote for option A. -/
def voteA : Vote := { choice := "A".toList, agent_id := "a1", conscientiousness := 0.5 }

/-- A vote for option B. -/
def voteB : Vote := { choice := "B".toList, agent_id := "b1", conscientiousness := 0.5 }

/-- A vote for option C. -/
def voteC : Vote := { choice := "C".toList, agent_id := "c1", conscientiousness := 0.5 }

/-- Seven votes with tally A:3, B:2, C:2. -/
def votesAAABBCC : List Vote := [voteA, voteA, voteA, voteB, voteB, voteC, voteC]

/-- Six votes with tally A:4, B:2. -/
def votesAAAABB : List Vote := [voteA, voteA, voteA, voteA, voteB, voteB]

/-- Five votes with tally A:3, B:2. -/
def votesAAABB : List Vote := [voteA, voteA, voteA, voteB, voteB]

/-- Two votes with tally A:1, B:1. -/
def votesAB : List Vote := [voteA, voteB]

/-- Five unanimous votes for A. -/
def votesAAAAA : List Vote := [voteA, voteA, voteA, voteA, voteA]

/-- A participant with every trait neutral. -/
def neutralAgent (n : String) : Agent :=
  { name := n, traits := ⟨0.5, 0.5, 0.5, 0.5, 0.5⟩, think := fun _ _ => [] }

/-- A high-neuroticism seller (conservative 1.2 markup). -/
def nervousSeller : Agent :=
  { name := "sally", traits := ⟨0.5, 0.5, 0.5, 0.5, 0.8⟩, think := fun _ _ => [] }

/-- A high-agreeableness buyer (generous 0.75 opening bid). -/
def agreeableBuyer : Agent :=
  { name := "bob", traits := ⟨0.5, 0.5, 0.5, 0.8, 0.5⟩, think := fun _ _ => [] }

/-- The default negotiation configuration (5 rounds, movement 1, threshold 5). -/
def defaultNegCfg : NegotiationCfg :=
  { max_rounds := 5, min_price_movement := 1, convergence_threshold := 5 }

/-- A juror who always answers with a structured guilty vote. -/
def guiltyJuror (n : String) : Agent :=
  { name := n, traits := ⟨0.5, 0.5, 0.5, 0.5, 0.5⟩,
    think := fun _ _ => ("VOTE: Guilty".toList) }

/-- A juror who always answers with a structured not-guilty vote. -/
def notGuiltyJuror (n : String) : Agent :=
  { name := n, traits := ⟨0.5, 0.5, 0.5, 0.5, 0.5⟩,
    think := fun _ _ => ("VOTE: Not Guilty".toList) }

/-- A jury context for a two-option criminal trial. -/
def trialCtx : JuryCtx :=
  { case_summary := "The defendant was seen near the scene.".toList
    evidence := []
    charges := "Theft".toList
    verdict_options := ["Guilty".toList, "Not Guilty".toList] }

/-- The default jury configuration (5 rounds, 0.75 consensus, hung juries allowed). -/
def defaultJuryCfg : JuryCfg :=
  { max_rounds := 5, required_consensus := 0.75, allow_hung_jury := true }

/-- Twelve jurors, nine of whom vote guilty. -/
def jurySplit9to3 : List Agent :=
  [guiltyJuror ("j1"), guiltyJuror ("j2"), guiltyJuror ("j3"), guiltyJuror ("j4"),
   guiltyJuror ("j5"), guiltyJuror ("j6"), guiltyJuror ("j7"), guiltyJuror ("j8"),
   guiltyJuror ("j9"), notGuiltyJuror ("j10"), notGuiltyJuror ("j11"), notGuiltyJuror ("j12")]

/-- Six jurors who all vote guilty, reaching consensus at round zero. -/
def juryAllGuilty6 : List Agent :=
  [guiltyJuror ("m1"), guiltyJuror ("m2"), guiltyJuror ("m3"),
   guiltyJuror ("m4"), guiltyJuror ("m5"), guiltyJuror ("m6")]

/-- A voting configuration with simple-majority rule and no abstention. -/
def defaultVotingCfg : VotingCfg :=
  { consensus_type := .simple_majority, allow_abstention := false,
    require_reasoning := true }

/-- A voting context whose option list is empty. -/
def emptyOptionsCtx : VotingCtx :=
  { question := "Should we proceed?".toList, options := [], background := [] }

/-! ### Projection lemmas for the consensus rules -/

lemma calculateResult_simple_majority (votes : List Vote) :
    calculateResult .simple_majority votes =
      simpleMajority (tallyOf (votes.map Vote.choice)) votes.length
        (buildBreakdown votes) := rfl

lemma calculateResult_supermajority (votes : List Vote) :
    calculateResult .supermajority votes =
      supermajority (tallyOf (votes.map Vote.choice)) votes.length
        (buildBreakdown votes) := rfl

lemma calculateResult_unanimous (votes : List Vote) :
    calculateResult .unanimous votes =
      unanimousRule (tallyOf (votes.map Vote.choice)) votes.length
        (buildBreakdown votes) := rfl

lemma calculateResult_plurality (votes : List Vote) :
    calculateResult .plurality votes =
      pluralityRule (tallyOf (votes.map Vote.choice)) votes.length
        (buildBreakdown votes) := rfl

lemma calculateResult_ranked_choice (votes : List Vote) :
    calculateResult .ranked_choice votes =
      simpleMajority (tallyOf (votes.map Vote.choice)) votes.length
        (buildBreakdown votes) := rfl

lemma calculateResult_weighted (votes : List Vote) :
    calculateResult .weighted votes = weightedRule votes (buildBreakdown votes) := rfl

lemma simpleMajority_tied (t : Tally) (n : ℕ) (b : Breakdown) :
    (simpleMajority t n b).tied = tiedTopTwo t := rfl

lemma simpleMajority_is_decisive (t : Tally) (n : ℕ) (b : Breakdown) :
    (simpleMajority t n b).is_decisive =
      (decide ((n : ℚ) / 2 < (maxCount t : ℚ)) && !tiedTopTwo t) := rfl

lemma simpleMajority_confidence (t : Tally) (n : ℕ) (b : Breakdown) :
    (simpleMajority t n b).confidence =
      if tiedTopTwo t then 0.5 else (maxCount t : ℚ) / (n : ℚ) := rfl

lemma supermajority_tied (t : Tally) (n : ℕ) (b : Breakdown) :
    (supermajority t n b).tied = false := rfl

lemma supermajority_is_decisive (t : Tally) (n : ℕ) (b : Breakdown) :
    (supermajority t n b).is_decisive =
      decide (2 * (n : ℚ) / 3 ≤ (maxCount t : ℚ)) := rfl

lemma supermajority_confidence (t : Tally) (n : ℕ) (b : Breakdown) :
    (supermajority t n b).confidence = (maxCount t : ℚ) / (n : ℚ) := rfl

lemma unanimousRule_tied (t : Tally) (n : ℕ) (b : Breakdown) :
    (unanimousRule t n b).tied = false := rfl

lemma unanimousRule_is_decisive (t : Tally) (n : ℕ) (b : Breakdown) :
    (unanimousRule t n b).is_decisive = (maxCount t == n) := rfl

lemma unanimousRule_confidence (t : Tally) (n : ℕ) (b : Breakdown) :
    (unanimousRule t n b).confidence =
      if maxCount t == n then 1 else (maxCount t : ℚ) / (n : ℚ) := rfl

lemma pluralityRule_tied (t : Tally) (n : ℕ) (b : Breakdown) :
    (pluralityRule t n b).tied = tiedTopTwo t := rfl

lemma pluralityRule_is_decisive (t : Tally) (n : ℕ) (b : Breakdown) :
    (pluralityRule t n b).is_decisive = !tiedTopTwo t := rfl

lemma weightedRule_tied (votes : List Vote) (b : Breakdown) :
    (weightedRule votes b).tied = false := rfl

/-! ### Facts about tallies -/

lemma maxCount_le_of_forall (t : Tally) (n : ℕ) (h : ∀ p ∈ t, p.2 ≤ n) :
    maxCount t ≤ n := by
  induction t with
  | nil => exact Nat.zero_le n
  | cons p t ih =>
    have hp := h p (List.mem_cons_self p t)
    have ht := ih fun q hq => h q (List.mem_cons_of_mem p hq)
    exact max_le hp ht

lemma maxCount_tallyOf_le (l : List (List Char)) : maxCount (tallyOf l) ≤ l.length := by
  refine maxCount_le_of_forall _ _ fun p hp => ?_
  rcases List.mem_map.1 hp with ⟨k, _, rfl⟩
  exact List.count_le_length k l

/-! ### Evaluation lemmas for the concrete vote lists

Rational arithmetic is settled by norm_num (Rat normalization does not
reduce definitionally), while the purely discrete tally computations are
settled by decide. -/

lemma tally_votesAAABBCC :
    tallyOf (votesAAABBCC.map Vote.choice) =
      [("A".toList, 3), ("B".toList, 2), ("C".toList, 2)] := by decide

lemma tally_votesAAAABB :
    tallyOf (votesAAAABB.map Vote.choice) = [("A".toList, 4), ("B".toList, 2)] := by
  decide

lemma tally_votesAAABB :
    tallyOf (votesAAABB.map Vote.choice) = [("A".toList, 3), ("B".toList, 2)] := by
  decide

/-! ### Claims about the consensus calculator -/

/-- C1: counterexample. For the simple-majority vote list with tally
A:3, B:2, C:2 (total 7) the result is neither decisive nor tied, yet its
confidence is 3/7 rather than the claimed 0.5: the source selects the 0.5
branch on the tie flag, not on decisiveness. -/
theorem simple_majority_confidence_counterexample :
    (calculateResult .simple_majority votesAAABBCC).is_decisive = false ∧
    (calculateResult .simple_majority votesAAABBCC).tied = false ∧
    (calculateResult .simple_majority votesAAABBCC).confidence = 3 / 7 ∧
    ¬ ((3 : ℚ) / 7 = 0.5) := by
  have hmax : maxCount [("A".toList, 3), ("B".toList, 2), ("C".toList, 2)] = 3 := by
    decide
  have htied : tiedTopTwo [("A".toList, 3), ("B".toList, 2), ("C".toList, 2)] = false := by
    decide
  have hlen : votesAAABBCC.length = 7 := rfl
  refine ⟨?_, ?_, ?_, by norm_num⟩
  · rw [calculateResult_simple_majority, simpleMajority_is_decisive,
      tally_votesAAABBCC, hmax, hlen,
      decide_eq_false (by norm_num : ¬ ((7 : ℕ) : ℚ) / 2 < ((3 : ℕ) : ℚ))]
    rfl
  · rw [calculateResult_simple_majority, simpleMajority_tied, tally_votesAAABBCC,
      htied]
  · rw [calculateResult_simple_majority, simpleMajority_confidence,
      tally_votesAAABBCC, htied, hmax, hlen]
    norm_num

/-- C1 (amended): for every simple-majority voting result, confidence equals
max_count/total whenever the result is not tied — including non-tied
indecisive tallies — and equals 0.5 exactly when the result is tied; since
a decisive result is never tied, every decisive result has confidence
max_count/total. -/
theorem simple_majority_confidence_amended (votes : List Vote) :
    ((calculateResult .simple_majority votes).tied = true →
      (calculateResult .simple_majority votes).confidence = 0.5) ∧
    ((calculateResult .simple_majority votes).tied = false →
      (calculateResult .simple_majority votes).confidence =
        (maxCount (tallyOf (votes.map Vote.choice)) : ℚ) / (votes.length : ℚ)) ∧
    ((calculateResult .simple_majority votes).is_decisive = true →
      (calculateResult .simple_majority votes).confidence =
        (maxCount (tallyOf (votes.map Vote.choice)) : ℚ) / (votes.length : ℚ)) := by
  rw [calculateResult_simple_majority]
  refine ⟨fun h => ?_, fun h => ?_, fun h => ?_⟩
  · rw [simpleMajority_tied] at h
    rw [simpleMajority_confidence, h, if_pos rfl]
  · rw [simpleMajority_tied] at h
    rw [simpleMajority_confidence, h]
    simp
  · rw [simpleMajority_is_decisive, Bool.and_eq_true, Bool.not_eq_true'] at h
    rw [simpleMajority_confidence, h.2]
    simp

/-- C1 witness: the non-tied tally A:3, B:2 has confidence 3/5, and the
tied tally A:1, B:1 has confidence 0.5. -/
theorem simple_majority_confidence_amended_witness :
    (calculateResult .simple_majority votesAAABB).confidence = (3 : ℚ) / 5 ∧
    (calculateResult .simple_majority votesAB).confidence = 0.5 := by
  constructor
  · have htied : (calculateResult .simple_majority votesAAABB).tied = false := by
      rw [calculateResult_simple_majority, simpleMajority_tied, tally_votesAAABB]
      decide
    rw [(simple_majority_confidence_amended votesAAABB).2.1 htied, tally_votesAAABB,
      show votesAAABB.length = 5 from rfl,
      show maxCount [("A".toList, 3), ("B".toList, 2)] = 3 from by decide]
    norm_num
  · have htied : (calculateResult .simple_majority votesAB).tied = true := by
      rw [calculateResult_simple_majority, simpleMajority_tied]
      decide
    exact (simple_majority_confidence_amended votesAB).1 htied

/-- C6: for every supermajority voting result, the result is decisive
exactly when the top count reaches two thirds of the total, boundary
included, and the confidence is max_count/total whether or not the result
is decisive. -/
theorem supermajority_decisiveness (votes : List Vote) :
    ((calculateResult .supermajority votes).is_decisive = true ↔
      2 * (votes.length : ℚ) / 3 ≤ (maxCount (tallyOf (votes.map Vote.choice)) : ℚ)) ∧
    (calculateResult .supermajority votes).confidence =
      (maxCount (tallyOf (votes.map Vote.choice)) : ℚ) / (votes.length : ℚ) := by
  rw [calculateResult_supermajority]
  exact ⟨by rw [supermajority_is_decisive]; exact decide_eq_true_iff,
    supermajority_confidence _ _ _⟩

/-- C6 witness: the boundary tally A:4 of 6 (4/6 equals the two-thirds
threshold exactly) is decisive, and A:3 of 5 is not. -/
theorem supermajority_decisiveness_witness :
    (calculateResult .supermajority votesAAAABB).is_decisive = true ∧
    (calculateResult .supermajority votesAAABB).is_decisive = false := by
  constructor
  · refine (supermajority_decisiveness votesAAAABB).1.mpr ?_
    rw [tally_votesAAAABB, show votesAAAABB.length = 6 from rfl,
      show maxCount [("A".toList, 4), ("B".toList, 2)] = 4 from by decide]
    norm_num
  · refine Bool.eq_false_iff.mpr fun h => ?_
    have h2 := (supermajority_decisiveness votesAAABB).1.mp h
    rw [tally_votesAAABB, show votesAAABB.length = 5 from rfl,
      show maxCount [("A".toList, 3), ("B".toList, 2)] = 3 from by decide] at h2
    norm_num at h2

/-- C7: for every unanimous-rule voting result, the result is decisive
exactly when the top count equals the total, the confidence equals 1
exactly when the result is decisive, and an indecisive result has
confidence max_count/total, which is strictly below 1. -/
theorem unanimous_confidence (votes : List Vote) :
    ((calculateResult .unanimous votes).is_decisive = true ↔
      maxCount (tallyOf (votes.map Vote.choice)) = votes.length) ∧
    ((calculateResult .unanimous votes).confidence = 1 ↔
      (calculateResult .unanimous votes).is_decisive = true) ∧
    ((calculateResult .unanimous votes).is_decisive = false →
      (calculateResult .unanimous votes).confidence =
        (maxCount (tallyOf (votes.map Vote.choice)) : ℚ) / (votes.length : ℚ) ∧
      (calculateResult .unanimous votes).confidence < 1) := by
  rw [calculateResult_unanimous]
  have hle := maxCount_tallyOf_le (votes.map Vote.choice)
  rw [List.length_map] at hle
  have hlt : ∀ h : (maxCount (tallyOf (votes.map Vote.choice)) == votes.length) = false,
      (maxCount (tallyOf (votes.map Vote.choice)) : ℚ) / (votes.length : ℚ) < 1 := by
    intro h
    have hne : maxCount (tallyOf (votes.map Vote.choice)) ≠ votes.length := by
      simpa using h
    have hlt' := lt_of_le_of_ne hle hne
    have hpos : 0 < votes.length := Nat.lt_of_le_of_lt (Nat.zero_le _) hlt'
    rw [div_lt_one (by exact_mod_cast hpos)]
    exact_mod_cast hlt'
  refine ⟨by rw [unanimousRule_is_decisive]; exact beq_iff_eq, ?_, ?_⟩
  · rw [unanimousRule_is_decisive, unanimousRule_confidence]
    rcases h : (maxCount (tallyOf (votes.map Vote.choice)) == votes.length) with _ | _
    · rw [if_neg Bool.false_ne_true]
      exact ⟨fun hc => absurd hc (ne_of_lt (hlt h)), fun hc => absurd hc (by simp)⟩
    · rw [if_pos rfl]
      exact ⟨fun _ => rfl, fun _ => rfl⟩
  · intro h
    rw [unanimousRule_is_decisive] at h
    rw [unanimousRule_confidence, if_neg (by rw [h]; exact Bool.false_ne_true)]
    exact ⟨rfl, hlt h⟩

/-- C7 witness: five unanimous votes are decisive with confidence 1, and a
3-to-2 split is indecisive with confidence below 1. -/
theorem unanimous_confidence_witness :
    (calculateResult .unanimous votesAAAAA).confidence = 1 ∧
    (calculateResult .unanimous votesAAABB).confidence < 1 := by
  constructor
  · refine (unanimous_confidence votesAAAAA).2.1.mpr ?_
    rw [calculateResult_unanimous, unanimousRule_is_decisive]
    decide
  · refine ((unanimous_confidence votesAAABB).2.2 ?_).2
    rw [calculateResult_unanimous, unanimousRule_is_decisive]
    decide

/-- C8: for every voting result produced by the consensus dispatcher —
under any of the five consensus rules and the ranked-choice fallback — a
tied result is never decisive; and every simple-majority vote list whose
top two tally counts are equal is reported tied and indecisive, whatever
the winning share. -/
theorem tied_forces_indecisive :
    (∀ (ct : ConsensusType) (votes : List Vote),
      (calculateResult ct votes).tied = true →
      (calculateResult ct votes).is_decisive = false) ∧
    (∀ votes : List Vote,
      tiedTopTwo (tallyOf (votes.map Vote.choice)) = true →
      (calculateResult .simple_majority votes).tied = true ∧
      (calculateResult .simple_majority votes).is_decisive = false) := by
  have hsm : ∀ votes : List Vote,
      tiedTopTwo (tallyOf (votes.map Vote.choice)) = true →
      (calculateResult .simple_majority votes).tied = true ∧
      (calculateResult .simple_majority votes).is_decisive = false := by
    intro votes h
    rw [calculateResult_simple_majority, simpleMajority_tied,
      simpleMajority_is_decisive, h]
    simp
  constructor
  · intro ct votes h
    cases ct with
    | simple_majority =>
      exact (hsm votes (by rwa [calculateResult_simple_majority, simpleMajority_tied] at h)).2
    | ranked_choice =>
      rw [calculateResult_ranked_choice, simpleMajority_tied] at h
      rw [calculateResult_ranked_choice, simpleMajority_is_decisive, h]
      simp
    | plurality =>
      rw [calculateResult_plurality, pluralityRule_tied] at h
      rw [calculateResult_plurality, pluralityRule_is_decisive, h]
      simp
    | supermajority =>
      rw [calculateResult_supermajority, supermajority_tied] at h
      exact absurd h (by simp)
    | unanimous =>
      rw [calculateResult_unanimous, unanimousRule_tied] at h
      exact absurd h (by simp)
    | weighted =>
      rw [calculateResult_weighted, weightedRule_tied] at h
      exact absurd h (by simp)
  · exact hsm

/-- C8 witness: the two-vote tie A:1, B:1 is tied and indecisive under the
simple-majority rule. -/
theorem tied_forces_indecisive_witness :
    (calculateResult .simple_majority votesAB).tied = true ∧
    (calculateResult .simple_majority votesAB).is_decisive = false :=
  tied_forces_indecisive.2 votesAB (by decide)

/-- C9: for every voting response on which all three parsing tiers fail —
no structured VOTE line yields an in-range number, no option text occurs in
the response, and no option position occurs as a numeric token in the first
50 characters — the parsed choice is the abstention marker when abstention
is allowed and the first listed option otherwise. -/
theorem unparseable_vote_fallback (allowAbstention : Bool) (response : List Char)
    (options : List (List Char))
    (h1 : parseStructuredVote response options = none)
    (h2 : parseOptionMention response options = none)
    (h3 : parseNumericToken response options = none) :
    parseVoteChoice allowAbstention response options =
      (if allowAbstention then ("ABSTAIN".toList) else options.headD []) := by
  unfold parseVoteChoice
  rw [h1, h2, h3]
  rfl

/-- C9 witness: a response without VOTE line, option mention or leading
numeral abstains when abstention is allowed and falls back to the first
option when it is not. -/
theorem unparseable_vote_fallback_witness :
    parseVoteChoice true ("zzz".toList) ["Yes".toList, "No".toList] = "ABSTAIN".toList ∧
    parseVoteChoice false ("zzz".toList) ["Yes".toList, "No".toList] = "Yes".toList := by
  constructor
  · exact (unparseable_vote_fallback true ("zzz".toList)
      ["Yes".toList, "No".toList] (by decide) (by decide) (by decide)).trans (by decide)
  · exact (unparseable_vote_fallback false ("zzz".toList)
      ["Yes".toList, "No".toList] (by decide) (by decide) (by decide)).trans (by decide)

/-- C10: for every call of the voting execute with at least two agents but
an empty option list, the call returns the option-validation error having
consulted nobody, and the protocol state — its response log, its completion
flag and its recorded result — is exactly the state passed in; in
particular a fresh state keeps is_complete = false and result = none. -/
theorem voting_empty_options_error (cfg : VotingCfg) (agents : List Agent)
    (ctx : VotingCtx) (st : VotingState)
    (hagents : 2 ≤ agents.length) (hopts : ctx.options = []) :
    votingExecute cfg agents ctx st =
      (.error ("Voting requires options to choose from"), st) := by
  unfold votingExecute
  rw [if_neg (by omega), hopts]
  rfl

/-- C10 witness: two agents and an empty option list produce the error and
leave the fresh state untouched. -/
theorem voting_empty_options_error_witness :
    votingExecute defaultVotingCfg [neutralAgent ("p"), neutralAgent ("q")]
      emptyOptionsCtx initVotingState =
      (.error ("Voting requires options to choose from"), initVotingState) :=
  voting_empty_options_error defaultVotingCfg [neutralAgent ("p"), neutralAgent ("q")]
    emptyOptionsCtx initVotingState (by decide) rfl

/-! ### Facts about the jury protocol -/

lemma checkConsensus_eq_true (required : ℚ) (t : Tally) (total : ℕ) :
    checkConsensus required t total = true ↔
      (t ≠ [] ∧ required ≤ (maxCount t : ℚ) / (total : ℚ)) := by
  unfold checkConsensus
  by_cases h : t = []
  · simp [h]
  · simp [h]

lemma juryLoop_traj_length (cfg : JuryCfg) (agents : List Agent) (ctx : JuryCtx) :
    ∀ (fuel roundNum : ℕ) (currentVotes : Tally) (trajectory : List Tally)
      (keyArguments : List (List Char)),
      trajectory.length = roundNum →
      roundNum + fuel = cfg.max_rounds + 1 →
      (juryLoop cfg agents ctx fuel roundNum currentVotes trajectory
          keyArguments).vote_trajectory.length =
        (juryLoop cfg agents ctx fuel roundNum currentVotes trajectory
          keyArguments).rounds_taken + 1 := by
  intro fuel
  induction fuel with
  | zero =>
    intro roundNum cur traj ka hlen harith
    simp only [juryLoop]
    split
    · simp only []
      omega
    · simp only []
      omega
  | succ fuel ih =>
    intro roundNum cur traj ka hlen harith
    simp only [juryLoop]
    split
    · simp only [List.length_append, List.length_singleton, hlen]
    · exact ih (roundNum + 1) _ _ _ (by simp [hlen]) (by omega)

/-! ### Claims about the jury protocol -/

/-- C4: the consensus check divides the largest tally count by the
participant count and compares the exact fraction with the threshold (no
rounding); with threshold 0.75 and 12 participants it passes exactly when
the top count is at least 9; a passing round-zero ballot ends the
deliberation at once with consensus reached and zero rounds taken; and
inside any deliberation round a passing re-vote tally ends the run at that
round with consensus reached. -/
theorem jury_consensus_threshold :
    (∀ (t : Tally) (total : ℕ),
      checkConsensus 0.75 t total = true ↔
        (t ≠ [] ∧ (0.75 : ℚ) ≤ (maxCount t : ℚ) / (total : ℚ))) ∧
    (∀ t : Tally, t ≠ [] →
      (checkConsensus 0.75 t 12 = true ↔ 9 ≤ maxCount t)) ∧
    (∀ (agents : List Agent) (ctx : JuryCtx),
      agents.length = 12 →
      9 ≤ maxCount (juryInitialTally agents ctx) →
      juryExecute defaultJuryCfg agents ctx =
        .ok
          { verdict := winnerOf (juryInitialTally agents ctx)
            final_vote_counts := juryInitialTally agents ctx
            rounds_taken := 0
            consensus_reached := true
            vote_trajectory := [juryInitialTally agents ctx]
            key_arguments := []
            holdouts := [] }) ∧
    (∀ (agents : List Agent) (ctx : JuryCtx) (fuel roundNum : ℕ)
      (cur : Tally) (traj : List Tally) (ka : List (List Char)),
      checkConsensus defaultJuryCfg.required_consensus
        (juryRoundTally agents (juryRoundArgs agents cur roundNum)
          ctx.verdict_options) agents.length = true →
      (juryLoop defaultJuryCfg agents ctx (fuel + 1) roundNum cur traj
          ka).consensus_reached = true ∧
      (juryLoop defaultJuryCfg agents ctx (fuel + 1) roundNum cur traj
          ka).rounds_taken = roundNum) := by
  have hiff : ∀ (t : Tally) (total : ℕ),
      checkConsensus 0.75 t total = true ↔
        (t ≠ [] ∧ (0.75 : ℚ) ≤ (maxCount t : ℚ) / (total : ℚ)) :=
    fun t total => checkConsensus_eq_true 0.75 t total
  refine ⟨hiff, ?_, ?_, ?_⟩
  · intro t ht
    rw [hiff t 12]
    have h12 : (0 : ℚ) < (12 : ℕ) := by norm_num
    constructor
    · rintro ⟨-, hq⟩
      rw [le_div_iff₀ h12] at hq
      have : (9 : ℚ) ≤ (maxCount t : ℚ) := by
        calc (9 : ℚ) = 0.75 * (12 : ℕ) := by norm_num
          _ ≤ _ := hq
      exact_mod_cast this
    · intro h9
      refine ⟨ht, ?_⟩
      rw [le_div_iff₀ h12]
      calc (0.75 : ℚ) * (12 : ℕ) = 9 := by norm_num
        _ ≤ (maxCount t : ℚ) := by exact_mod_cast h9
  · intro agents ctx hlen h9
    have htne : juryInitialTally agents ctx ≠ [] := by
      intro he
      rw [he] at h9
      exact absurd h9 (by decide)
    have hchk : checkConsensus defaultJuryCfg.required_consensus
        (juryInitialTally agents ctx) agents.length = true := by
      rw [show defaultJuryCfg.required_consensus = 0.75 from rfl,
        checkConsensus_eq_true]
      refine ⟨htne, ?_⟩
      rw [hlen, le_div_iff₀ (by norm_num : (0 : ℚ) < (12 : ℕ))]
      calc (0.75 : ℚ) * (12 : ℕ) = 9 := by norm_num
        _ ≤ (maxCount (juryInitialTally agents ctx) : ℚ) := by exact_mod_cast h9
    simp only [juryExecute]
    rw [if_pos (by omega : 6 ≤ agents.length ∧ agents.length ≤ 12), if_pos hchk]
  · intro agents ctx fuel roundNum cur traj ka hc
    simp only [juryLoop]
    rw [if_pos hc]
    exact ⟨rfl, rfl⟩

/-- C4 witness: the tally Guilty:9, Not Guilty:3 of 12 jurors passes the
0.75 check, Guilty:8, Not Guilty:4 does not, and a 9-to-3 jury of 12 ends
at round zero with consensus reached. -/
theorem jury_consensus_threshold_witness :
    checkConsensus 0.75 [("Guilty".toList, 9), ("Not Guilty".toList, 3)] 12 = true ∧
    checkConsensus 0.75 [("Guilty".toList, 8), ("Not Guilty".toList, 4)] 12 = false ∧
    ∃ v, juryExecute defaultJuryCfg jurySplit9to3 trialCtx = .ok v ∧
      v.consensus_reached = true ∧ v.rounds_taken = 0 := by
  refine ⟨?_, ?_, ?_⟩
  · exact (jury_consensus_threshold.2.1 _ (by simp)).mpr (by decide)
  · refine Bool.eq_false_iff.mpr fun h => ?_
    have h9 := (jury_consensus_threshold.2.1 _ (by simp)).mp h
    rw [show maxCount [("Guilty".toList, 8), ("Not Guilty".toList, 4)] = 8
      from by decide] at h9
    omega
  · exact ⟨_, jury_consensus_threshold.2.2.1 jurySplit9to3 trialCtx (by decide)
      (by decide), rfl, rfl⟩

/-- C5: for every jury run that validates — whatever the jurors answer and
however it terminates (round-zero consensus, later-round consensus, hung
jury, or forced plurality verdict) — the returned verdict records exactly
one more tally in its vote trajectory than rounds taken: entry zero is the
initial secret ballot and each deliberation round appends one tally. -/
theorem jury_vote_trajectory_length (cfg : JuryCfg) (agents : List Agent)
    (ctx : JuryCtx) (v : JuryVerdict)
    (h : juryExecute cfg agents ctx = .ok v) :
    v.vote_trajectory.length = v.rounds_taken + 1 := by
  simp only [juryExecute] at h
  by_cases hval : 6 ≤ agents.length ∧ agents.length ≤ 12
  · rw [if_pos hval] at h
    by_cases hc : checkConsensus cfg.required_consensus
        (juryInitialTally agents ctx) agents.length = true
    · rw [if_pos hc] at h
      cases Except.ok.inj h
      rfl
    · rw [if_neg hc] at h
      cases Except.ok.inj h
      exact juryLoop_traj_length cfg agents ctx cfg.max_rounds 1
        (juryInitialTally agents ctx) [juryInitialTally agents ctx] [] rfl
        (by omega)
  · rw [if_neg hval] at h
    exact absurd h (by simp)

/-- C5 witness: a six-juror unanimous panel reaches consensus at round zero
and its verdict has a one-entry trajectory with zero rounds taken. -/
theorem jury_vote_trajectory_length_witness :
    ∃ v, juryExecute defaultJuryCfg juryAllGuilty6 trialCtx = .ok v ∧
      v.vote_trajectory.length = v.rounds_taken + 1 := by
  have htal : juryInitialTally juryAllGuilty6 trialCtx = [("Guilty".toList, 6)] := by
    decide
  have hchk : checkConsensus defaultJuryCfg.required_consensus
      (juryInitialTally juryAllGuilty6 trialCtx) juryAllGuilty6.length = true := by
    rw [show defaultJuryCfg.required_consensus = 0.75 from rfl,
      checkConsensus_eq_true, htal]
    refine ⟨by simp, ?_⟩
    rw [show maxCount [("Guilty".toList, 6)] = 6 from by decide,
      show juryAllGuilty6.length = 6 from rfl]
    norm_num
  have hexec : juryExecute defaultJuryCfg juryAllGuilty6 trialCtx =
      .ok
        { verdict := winnerOf (juryInitialTally juryAllGuilty6 trialCtx)
          final_vote_counts := juryInitialTally juryAllGuilty6 trialCtx
          rounds_taken := 0
          consensus_reached := true
          vote_trajectory := [juryInitialTally juryAllGuilty6 trialCtx]
          key_arguments := []
          holdouts := [] } := by
    simp only [juryExecute]
    rw [if_pos (by decide : 6 ≤ juryAllGuilty6.length ∧ juryAllGuilty6.length ≤ 12),
      if_pos hchk]
  exact ⟨_, hexec,
    jury_vote_trajectory_length defaultJuryCfg juryAllGuilty6 trialCtx _ hexec⟩

/-! ### Facts about the negotiation protocol -/

lemma sellerCounter_ge_reserve (cfg : NegotiationCfg) (seller : Agent)
    (currentAsk buyerBid reserve : ℚ) (roundNum : ℕ) :
    reserve ≤ sellerCounter cfg seller currentAsk buyerBid reserve roundNum := by
  unfold sellerCounter
  dsimp only
  split_ifs <;> exact le_max_right _ _

lemma buyerCounter_le_max (cfg : NegotiationCfg) (buyer : Agent)
    (currentBid sellerAsk maxPrice : ℚ) (roundNum : ℕ) :
    buyerCounter cfg buyer currentBid sellerAsk maxPrice roundNum ≤ maxPrice := by
  unfold buyerCounter
  dsimp only
  split_ifs <;> exact min_le_right _ _

lemma initialAsk_ge (seller : Agent) (reserve : ℚ) (h : 0 ≤ reserve) :
    reserve ≤ initialAsk seller reserve := by
  unfold initialAsk
  dsimp only
  split_ifs <;> linarith

lemma initialBid_le (buyer : Agent) (maxPrice : ℚ) (h : 0 ≤ maxPrice) :
    initialBid buyer maxPrice ≤ maxPrice := by
  unfold initialBid
  dsimp only
  split_ifs <;> linarith

lemma midpoint_bounds {a b threshold reserve maxPrice : ℚ} (ha : reserve ≤ a)
    (hb : b ≤ maxPrice) (h : |a - b| ≤ threshold) :
    reserve - threshold / 2 ≤ (a + b) / 2 ∧
      (a + b) / 2 ≤ maxPrice + threshold / 2 := by
  rw [abs_le] at h
  constructor <;> linarith [h.1, h.2]

lemma negLoop_success_bounds (cfg : NegotiationCfg) (seller buyer : Agent)
    (item : String) (reserve maxPrice ia ib : ℚ) :
    ∀ (fuel roundNum : ℕ) (ask bid : ℚ) (offers : List Offer) (log : List String),
      reserve ≤ ask → bid ≤ maxPrice →
      (negLoop cfg seller buyer item reserve maxPrice ia ib fuel roundNum ask bid
          offers log).1.outcome = .success →
      ∃ p,
        (negLoop cfg seller buyer item reserve maxPrice ia ib fuel roundNum ask bid
            offers log).1.final_price = some p ∧
        reserve - cfg.convergence_threshold / 2 ≤ p ∧
        p ≤ maxPrice + cfg.convergence_threshold / 2 ∧
        (negLoop cfg seller buyer item reserve maxPrice ia ib fuel roundNum ask bid
            offers log).1.initial_ask = ia ∧
        (negLoop cfg seller buyer item reserve maxPrice ia ib fuel roundNum ask bid
            offers log).1.initial_bid = ib ∧
        (negLoop cfg seller buyer item reserve maxPrice ia ib fuel roundNum ask bid
            offers log).1.savings = some (ia - p) ∧
        (negLoop cfg seller buyer item reserve maxPrice ia ib fuel roundNum ask bid
            offers log).1.premium = some (p - ib) := by
  intro fuel
  induction fuel with
  | zero =>
    intro roundNum ask bid offers log ha hb hout
    exact absurd hout (by simp [negLoop])
  | succ fuel ih =>
    intro roundNum ask bid offers log ha hb hout
    have ha1 := sellerCounter_ge_reserve cfg seller ask bid reserve roundNum
    simp only [negLoop] at hout ⊢
    by_cases h1 : |sellerCounter cfg seller ask bid reserve roundNum - bid| ≤
        cfg.convergence_threshold
    · rw [if_pos h1] at hout ⊢
      simp only [createSuccessResult]
      have hm := midpoint_bounds ha1 hb h1
      refine ⟨_, rfl, hm.1, hm.2, ?_, ?_, ?_, ?_⟩ <;> trivial
    · rw [if_neg h1] at hout ⊢
      have hb1 := buyerCounter_le_max cfg buyer bid
        (sellerCounter cfg seller ask bid reserve roundNum) maxPrice roundNum
      by_cases h2 : |sellerCounter cfg seller ask bid reserve roundNum -
          buyerCounter cfg buyer bid (sellerCounter cfg seller ask bid reserve roundNum)
            maxPrice roundNum| ≤ cfg.convergence_threshold
      · rw [if_pos h2] at hout ⊢
        simp only [createSuccessResult]
        have hm := midpoint_bounds ha1 hb1 h2
        refine ⟨_, rfl, hm.1, hm.2, ?_, ?_, ?_, ?_⟩ <;> trivial
      · rw [if_neg h2] at hout ⊢
        exact ih (roundNum + 1) _ _ _ _ ha1 hb1 hout

/-! ### Claims about the negotiation protocol -/

/-- C2: counterexample. Two successful runs violate the claim: with
reserve 10, buyer maximum 10.5, a neurotic seller (markup 1.2, ask 12) and
an agreeable buyer (bid factor 0.75, bid 7.875), the immediate-convergence
midpoint 9.9375 falls below the seller reserve; and with reserve 2, buyer
maximum 5.1 and neutral traits the initial bid 3.06 exceeds the initial ask
3, so the midpoint 3.03 makes both savings and premium negative. -/
theorem negotiation_success_bounds_counterexample :
    (negRun defaultNegCfg nervousSeller agreeableBuyer ("lamp") 10
        (10.5 : ℚ)).1.outcome = .success ∧
    (negRun defaultNegCfg nervousSeller agreeableBuyer ("lamp") 10
        (10.5 : ℚ)).1.final_price = some (9.9375 : ℚ) ∧
    (9.9375 : ℚ) < 10 ∧
    (negRun defaultNegCfg (neutralAgent ("s")) (neutralAgent ("b")) "pen" 2
        (5.1 : ℚ)).1.outcome = .success ∧
    (negRun defaultNegCfg (neutralAgent ("s")) (neutralAgent ("b")) "pen" 2
        (5.1 : ℚ)).1.savings = some (-0.03 : ℚ) ∧
    (negRun defaultNegCfg (neutralAgent ("s")) (neutralAgent ("b")) "pen" 2
        (5.1 : ℚ)).1.premium = some (-0.03 : ℚ) ∧
    (-0.03 : ℚ) < 0 := by
  have hia1 : initialAsk nervousSeller 10 = 12 := by
    norm_num [initialAsk, nervousSeller]
  have hib1 : initialBid agreeableBuyer (10.5 : ℚ) = 7.875 := by
    norm_num [initialBid, agreeableBuyer]
  have habs1 : |initialAsk nervousSeller 10 - initialBid agreeableBuyer (10.5 : ℚ)| ≤
      defaultNegCfg.convergence_threshold := by
    rw [hia1, hib1, show ((12 : ℚ) - 7.875) = 4.125 from by norm_num,
      abs_of_nonneg (by norm_num : (0 : ℚ) ≤ 4.125)]
    norm_num [defaultNegCfg]
  have h1 : negRun defaultNegCfg nervousSeller agreeableBuyer ("lamp") 10 (10.5 : ℚ) =
      (createSuccessResult agreeableBuyer nervousSeller ("lamp")
        ((initialAsk nervousSeller 10 + initialBid agreeableBuyer (10.5 : ℚ)) / 2)
        (initialAsk nervousSeller 10) (initialBid agreeableBuyer (10.5 : ℚ))
        [{ round := 0, agent_id := nervousSeller.name, role := "seller",
           price := initialAsk nervousSeller 10, message := "Initial ask" },
         { round := 0, agent_id := agreeableBuyer.name, role := "buyer",
           price := initialBid agreeableBuyer (10.5 : ℚ), message := "Initial bid" }],
        [nervousSeller.name, agreeableBuyer.name]) := by
    simp only [negRun]
    rw [if_neg (by norm_num : ¬ ((10.5 : ℚ) < 10)), if_pos habs1]
  have hia2 : initialAsk (neutralAgent ("s")) 2 = 3 := by
    norm_num [initialAsk, neutralAgent]
  have hib2 : initialBid (neutralAgent ("b")) (5.1 : ℚ) = 3.06 := by
    norm_num [initialBid, neutralAgent]
  have habs2 : |initialAsk (neutralAgent ("s")) 2 - initialBid (neutralAgent ("b")) (5.1 : ℚ)| ≤
      defaultNegCfg.convergence_threshold := by
    rw [hia2, hib2, show ((3 : ℚ) - 3.06) = -0.06 from by norm_num, abs_neg,
      abs_of_nonneg (by norm_num : (0 : ℚ) ≤ 0.06)]
    norm_num [defaultNegCfg]
  have h2 : negRun defaultNegCfg (neutralAgent ("s")) (neutralAgent ("b")) "pen" 2 (5.1 : ℚ) =
      (createSuccessResult (neutralAgent ("b")) (neutralAgent ("s")) "pen"
        ((initialAsk (neutralAgent ("s")) 2 + initialBid (neutralAgent ("b")) (5.1 : ℚ)) / 2)
        (initialAsk (neutralAgent ("s")) 2) (initialBid (neutralAgent ("b")) (5.1 : ℚ))
        [{ round := 0, agent_id := (neutralAgent ("s")).name, role := "seller",
           price := initialAsk (neutralAgent ("s")) 2, message := "Initial ask" },
         { round := 0, agent_id := (neutralAgent ("b")).name, role := "buyer",
           price := initialBid (neutralAgent ("b")) (5.1 : ℚ), message := "Initial bid" }],
        [(neutralAgent ("s")).name, (neutralAgent ("b")).name]) := by
    simp only [negRun]
    rw [if_neg (by norm_num : ¬ ((5.1 : ℚ) < 2)), if_pos habs2]
  refine ⟨?_, ?_, by norm_num, ?_, ?_, ?_, by norm_num⟩
  · rw [h1]; rfl
  · rw [h1]
    simp only [createSuccessResult]
    rw [hia1, hib1]
    norm_num
  · rw [h2]; rfl
  · rw [h2]
    simp only [createSuccessResult]
    rw [hia2, hib2]
    norm_num
  · rw [h2]
    simp only [createSuccessResult]
    rw [hia2, hib2]
    norm_num

/-- C2 (amended): for every negotiation run with nonnegative reserve and
buyer maximum that terminates with outcome success, the final price is the
midpoint of an ask at least the seller reserve and a bid at most the buyer
maximum that differ by at most the convergence threshold, so it satisfies
seller_reserve − threshold/2 ≤ final_price ≤ buyer_max + threshold/2
(2.5 each way at the default threshold 5); savings and premium always equal
initial_ask − final_price and final_price − initial_bid respectively, but
they can be negative when the initial bid exceeds the initial ask, and the
final price can undercut the reserve (or exceed the maximum) by up to half
the threshold. -/
theorem negotiation_success_price_bounds (cfg : NegotiationCfg)
    (seller buyer : Agent) (item : String) (reserve maxPrice : ℚ)
    (hres : 0 ≤ reserve) (hmax : 0 ≤ maxPrice)
    (hout : (negRun cfg seller buyer item reserve maxPrice).1.outcome = .success) :
    ∃ p,
      (negRun cfg seller buyer item reserve maxPrice).1.final_price = some p ∧
      reserve - cfg.convergence_threshold / 2 ≤ p ∧
      p ≤ maxPrice + cfg.convergence_threshold / 2 ∧
      (negRun cfg seller buyer item reserve maxPrice).1.savings =
        some ((negRun cfg seller buyer item reserve maxPrice).1.initial_ask - p) ∧
      (negRun cfg seller buyer item reserve maxPrice).1.premium =
        some (p - (negRun cfg seller buyer item reserve maxPrice).1.initial_bid) := by
  have hia := initialAsk_ge seller reserve hres
  have hib := initialBid_le buyer maxPrice hmax
  simp only [negRun] at hout ⊢
  by_cases hz : maxPrice < reserve
  · rw [if_pos hz] at hout
    exact absurd hout (by simp)
  · rw [if_neg hz] at hout ⊢
    by_cases h0 : |initialAsk seller reserve - initialBid buyer maxPrice| ≤
        cfg.convergence_threshold
    · rw [if_pos h0] at hout ⊢
      simp only [createSuccessResult]
      have hm := midpoint_bounds hia hib h0
      exact ⟨_, rfl, hm.1, hm.2, rfl, rfl⟩
    · rw [if_neg h0] at hout ⊢
      obtain ⟨p, hp, hlow, hhigh, hia', hib', hs, hpr⟩ :=
        negLoop_success_bounds cfg seller buyer item reserve maxPrice
          (initialAsk seller reserve) (initialBid buyer maxPrice)
          cfg.max_rounds 1 (initialAsk seller reserve) (initialBid buyer maxPrice)
          _ _ hia hib hout
      refine ⟨p, hp, hlow, hhigh, ?_, ?_⟩
      · rw [hia', hs]
      · rw [hib', hpr]

/-- C2 witness: with reserve 100, buyer maximum 200 and a neurotic seller
the run converges immediately at 120, which lies within the amended bounds
and has savings and premium derived from the initial positions. -/
theorem negotiation_success_price_bounds_witness :
    ∃ p,
      (negRun defaultNegCfg nervousSeller (neutralAgent ("ben")) "guitar" 100
          200).1.final_price = some p ∧
      100 - defaultNegCfg.convergence_threshold / 2 ≤ p ∧
      p ≤ 200 + defaultNegCfg.convergence_threshold / 2 ∧
      (negRun defaultNegCfg nervousSeller (neutralAgent ("ben")) "guitar" 100
          200).1.savings =
        some ((negRun defaultNegCfg nervousSeller (neutralAgent ("ben")) "guitar" 100
          200).1.initial_ask - p) ∧
      (negRun defaultNegCfg nervousSeller (neutralAgent ("ben")) "guitar" 100
          200).1.premium =
        some (p - (negRun defaultNegCfg nervousSeller (neutralAgent ("ben")) "guitar" 100
          200).1.initial_bid) := by
  have hia : initialAsk nervousSeller 100 = 120 := by
    norm_num [initialAsk, nervousSeller]
  have hib : initialBid (neutralAgent ("ben")) 200 = 120 := by
    norm_num [initialBid, neutralAgent]
  have habs : |initialAsk nervousSeller 100 - initialBid (neutralAgent ("ben")) 200| ≤
      defaultNegCfg.convergence_threshold := by
    rw [hia, hib, sub_self, abs_zero]
    norm_num [defaultNegCfg]
  have hout : (negRun defaultNegCfg nervousSeller (neutralAgent ("ben")) "guitar" 100
      200).1.outcome = .success := by
    simp only [negRun]
    rw [if_neg (by norm_num : ¬ ((200 : ℚ) < 100)), if_pos habs]
    rfl
  exact negotiation_success_price_bounds defaultNegCfg nervousSeller
    (neutralAgent ("ben")) "guitar" 100 200 (by norm_num) (by norm_num) hout

/-- C3: when the seller reserve exceeds the buyer maximum, the run returns
a structured failure before any participant interaction: the result is the
literal failure record with zero rounds taken and no offers, the
participant-consultation log is empty (the source consults an agent only
when computing its ask, bid or counter-offers, all of which are skipped),
and the execute entry point wraps that record in a non-exceptional return
whenever exactly two participants are supplied. -/
theorem negotiation_no_zopa_failure :
    (∀ (cfg : NegotiationCfg) (seller buyer : Agent) (item : String)
        (reserve maxPrice : ℚ), maxPrice < reserve →
      negRun cfg seller buyer item reserve maxPrice =
        ({ outcome := .failure, final_price := none, rounds_taken := 0,
           offers := [], buyer_id := buyer.name, seller_id := seller.name,
           item := item, initial_ask := reserve, initial_bid := maxPrice,
           savings := none, premium := none }, [])) ∧
    (∀ (cfg : NegotiationCfg) (agents : List Agent) (ctx : NegotiationCtx),
      agents.length = 2 → ctx.buyer_max < ctx.seller_reserve →
      ∃ r, negExecute cfg agents ctx = .ok (r, []) ∧
        r.outcome = .failure ∧ r.rounds_taken = 0 ∧ r.offers = []) := by
  have h1 : ∀ (cfg : NegotiationCfg) (seller buyer : Agent) (item : String)
      (reserve maxPrice : ℚ), maxPrice < reserve →
      negRun cfg seller buyer item reserve maxPrice =
        ({ outcome := .failure, final_price := none, rounds_taken := 0,
           offers := [], buyer_id := buyer.name, seller_id := seller.name,
           item := item, initial_ask := reserve, initial_bid := maxPrice,
           savings := none, premium := none }, []) := by
    intro cfg seller buyer item reserve maxPrice h
    unfold negRun
    rw [if_pos h]
  refine ⟨h1, ?_⟩
  intro cfg agents ctx hlen hz
  refine ⟨{ outcome := .failure
            final_price := none
            rounds_taken := 0
            offers := []
            buyer_id := (agents.getD (1 - ctx.seller_index) default).name
            seller_id := (agents.getD ctx.seller_index default).name
            item := ctx.item
            initial_ask := ctx.seller_reserve
            initial_bid := ctx.buyer_max
            savings := none
            premium := none },
    ?_, rfl, rfl, rfl⟩
  unfold negExecute
  rw [if_pos hlen]
  dsimp only
  rw [h1 cfg (agents.getD ctx.seller_index default)
    (agents.getD (1 - ctx.seller_index) default) ctx.item ctx.seller_reserve
    ctx.buyer_max hz]

/-- C3 witness: reserve 300 against buyer maximum 200 yields the literal
zero-round failure record with no offers and an empty consultation log. -/
theorem negotiation_no_zopa_failure_witness :
    negRun defaultNegCfg (neutralAgent ("sam")) (neutralAgent ("bea")) "rug" 300 200 =
      ({ outcome := .failure, final_price := none, rounds_taken := 0,
         offers := [], buyer_id := "bea", seller_id := "sam", item := "rug",
         initial_ask := 300, initial_bid := 200,
         savings := none, premium := none }, []) :=
  negotiation_no_zopa_failure.1 defaultNegCfg (neutralAgent ("sam"))
    (neutralAgent ("bea")) "rug" 300 200 (by norm_num)

end Simulacrum
